import Mathlib

/-!
Verification of the subscription/entitlement core of the Backend-Sports-Academy
repository, shallowly embedded from the JavaScript source:

* `src/models/subscriptionModel.js` — subscription schema, pre-save hook,
  `isActive` virtual, `canBeCancelled`, `canBeRenewed`, `deductSession`;
* `src/models/subscriptionPlanModel.js` — plan schema (duration, maxSessions);
* `src/models/transactionModel.js` — transaction schema and `processRefund`;
* `src/controllers/studentController.js` — `createSubscription` handler;
* the subscription controller (`createTransaction` handler).

Dates are modelled two ways, matching how the source uses them: calendar dates
(year/month/day, JS `Date` calendar arithmetic) where the code performs
`setDate`/`setMonth`/`setFullYear` arithmetic, and integer epoch-millisecond
timestamps where the code only compares instants. Mongoose documents become
plain structures; `null` fields become `Option`; a thrown error becomes an
explicit error value, with the untouched store returned alongside it.
-/

/-- Subscription lifecycle status (subscriptionModel.js `status` enum). -/
inductive SubStatus
  | active
  | expired
  | cancelled
  | pending
deriving DecidableEq, Repr

/-- Transaction status (transactionModel.js `status` enum). -/
inductive TxStatus
  | pending
  | completed
  | failed
  | refunded
  | disputed
deriving DecidableEq, Repr

/-- Transaction type (transactionModel.js `type` enum). -/
inductive TxType
  | payment
  | refund
  | adjustment
deriving DecidableEq, Repr

/-- Plan duration unit (subscriptionPlanModel.js `duration.unit` enum). -/
inductive DurUnit
  | days
  | weeks
  | months
  | years
deriving DecidableEq, Repr

/-- Plan duration (subscriptionPlanModel.js `duration : {value, unit}`). -/
structure Duration where
  value : Int
  unit : DurUnit
deriving DecidableEq, Repr

/-- The plan fields the subscription core reads (subscriptionPlanModel.js):
`duration` and `maxSessions` (`null` means unlimited, modelled as `none`). -/
structure Plan where
  duration : Duration
  maxSessions : Option Int
deriving DecidableEq, Repr

/-- Runtime view of a subscription document (subscriptionModel.js), with the
date fields as epoch-millisecond timestamps since the methods below only ever
compare them. `remainingSessions = none` is the schema's `null` (unlimited). -/
structure Subscription where
  status : SubStatus
  startDate : Int
  endDate : Int
  remainingSessions : Option Int
  cancelledAt : Option Int
  cancelReason : Option String
deriving DecidableEq, Repr

/-- Core of `deductSession` (subscriptionModel.js lines 184-191) on the
`remainingSessions` field: `null` is an unlimited plan (no-op success);
a value `<= 0` is a failure with no mutation; otherwise decrement by 1.
Returns the success flag and the resulting field value. -/
def deductSession (r : Option Int) : Bool × Option Int :=
  match r with
  | none => (true, none)
  | some n => if n ≤ 0 then (false, some n) else (true, some (n - 1))

/-- The `deductSession` instance method applied to a whole subscription
document: the source reads and writes only `remainingSessions`. -/
def Subscription.deduct (s : Subscription) : Bool × Subscription :=
  let r := deductSession s.remainingSessions
  (r.1, { s with remainingSessions := r.2 })

/-- Sequential iteration of `deductSession`, tracking whether every call in the
sequence succeeded and the final `remainingSessions` value. -/
def deductIter : Nat → Option Int → Bool × Option Int
  | 0, r => (true, r)
  | n + 1, r =>
      let step := deductSession r
      let rest := deductIter n step.2
      (step.1 && rest.1, rest.2)

theorem deductIter_unlimited (N : Nat) : deductIter N none = (true, none) := by
  induction N with
  | zero => rfl
  | succ n ih => simp [deductIter, deductSession, ih]

theorem deductIter_counts (N : Nat) : ∀ init : Int, (N : Int) ≤ init →
    deductIter N (some init) = (true, some (init - N)) := by
  induction N with
  | zero => intro init _; simp [deductIter]
  | succ n ih =>
      intro init h
      have h1 : ¬ init ≤ 0 := by omega
      have h2 : (n : Int) ≤ init - 1 := by push_cast at h ⊢; omega
      simp only [deductIter, deductSession, h1, if_false, ih (init - 1) h2]
      refine Prod.ext (by simp) ?_
      show some (init - 1 - (n : Int)) = some (init - ((n : Nat) + 1 : Nat))
      congr 1
      push_cast
      omega

/-- C1: `deductSession` is a no-op returning success when `remainingSessions`
is null; returns the exhausted failure and leaves the value unchanged when it
is `<= 0`; otherwise decrements by exactly 1, so that after `N` successful
calls the value equals its initial value minus `N`. -/
theorem deductSession_contract (n m init : Int) (N : Nat)
    (hn : n ≤ 0) (hm : 0 < m) (hN : (N : Int) ≤ init) :
    deductSession none = (true, none) ∧
    deductSession (some n) = (false, some n) ∧
    deductSession (some m) = (true, some (m - 1)) ∧
    deductIter N (some init) = (true, some (init - N)) := by
  refine ⟨rfl, ?_, ?_, deductIter_counts N init hN⟩
  · simp [deductSession, hn]
  · simp [deductSession, not_le.mpr hm]

theorem deductSession_contract_witness :
    deductSession none = (true, none) ∧
    deductSession (some (-1)) = (false, some (-1)) ∧
    deductSession (some 2) = (true, some 1) ∧
    deductIter 3 (some 5) = (true, some 2) :=
  deductSession_contract (-1) 2 5 3 (by decide) (by decide) (by decide)

/-! ## Concurrency model for `deductSession` (C2)

The source's `deductSession` checks and decrements `this.remainingSessions` on
the caller's loaded copy of the document and then calls `save()`, which writes
the copy's new value over the store. We split the method at that persistence
boundary: each call owns a `copy` loaded from the store at some earlier point,
and a successful decrement overwrites the store with `copy - 1`. -/

/-- One `deductSession` call of the source, run against a previously loaded
document copy: the null and exhausted branches return without saving; the
decrement branch saves the copy's decremented value over the store. -/
def deductLoadThenSave (copy : Option Int) (store : Option Int) :
    Bool × Option Int :=
  match copy with
  | none => (true, store)
  | some n => if n ≤ 0 then (false, store) else (true, some (n - 1))

/-- Two concurrent `deductSession` calls in the interleaving the source's
load-then-save pattern admits: both load the document before either saves.
Returns both success flags and the final stored `remainingSessions`. -/
def twoDeductsBothLoadFirst (store : Option Int) :
    Bool × Bool × Option Int :=
  let copyA := store
  let copyB := store
  let resA := deductLoadThenSave copyA store
  let resB := deductLoadThenSave copyB resA.2
  (resA.1, resB.1, resB.2)

/-- Modelled from the spec: the mandated implementation of deduction as a
single conditional atomic update — decrement `remainingSessions` by 1 where
`remainingSessions > 0`, rejecting when no document matches; `null` stays a
successful no-op. Each call reads and writes the store in one atomic step, so
this operation is absent from the source by design of the spec's contract. -/
def conditionalDeduct (store : Option Int) : Bool × Option Int :=
  match store with
  | none => (true, none)
  | some n => if 0 < n then (true, some (n - 1)) else (false, some n)

/-- Two concurrent conditional atomic deductions: atomicity makes every
interleaving a sequential composition. -/
def twoAtomicDeducts (store : Option Int) : Bool × Bool × Option Int :=
  let resA := conditionalDeduct store
  let resB := conditionalDeduct resA.2
  (resA.1, resB.1, resB.2)

/-- C2: evaluated at the failing input — a subscription with one remaining
session and two concurrent calls that both load before either saves — the
source's load-then-save `deductSession` lets both calls succeed, while the
conditional atomic update the claim describes yields exactly one success and
one exhausted failure. The store ends at 0 either way. -/
theorem deductSession_race_at_one :
    twoDeductsBothLoadFirst (some 1) = (true, true, some 0) ∧
    twoAtomicDeducts (some 1) = (true, false, some 0) := by
  decide

/-! ## Status is not consulted by `deductSession` (C3) -/

/-- The `isActive` virtual (subscriptionModel.js lines 148-156): status must
be `active`, `now` must lie in `[startDate, endDate]`, and `remainingSessions`
must be null or positive. -/
def Subscription.isActive (s : Subscription) (now : Int) : Bool :=
  s.status == SubStatus.active &&
    decide (s.startDate ≤ now) && decide (now ≤ s.endDate) &&
    (match s.remainingSessions with
     | none => true
     | some n => decide (0 < n))

/-- A cancelled subscription with five remaining sessions. -/
def cancelledSub : Subscription :=
  { status := SubStatus.cancelled
    startDate := 0
    endDate := 1000
    remainingSessions := some 5
    cancelledAt := some 500
    cancelReason := some "student request" }

/-- C3 counterexample: calling `deductSession` on a cancelled subscription
holding five remaining sessions succeeds and decrements to four — the call is
neither rejected nor a no-op, contrary to the claim. -/
theorem deduct_on_cancelled_decrements :
    cancelledSub.deduct =
      (true, { cancelledSub with remainingSessions := some 4 }) := by
  decide

/-- C3 amended: `deductSession` never inspects `status`. On a cancelled or
expired subscription with positive `remainingSessions` it succeeds and
decrements exactly as on an active one, even though the `isActive` virtual is
false for every such subscription; `isActive` is simply not consulted. -/
theorem deduct_ignores_status (s : Subscription) (now n : Int)
    (hst : s.status = SubStatus.cancelled ∨ s.status = SubStatus.expired)
    (hr : s.remainingSessions = some n) (hn : 0 < n) :
    s.isActive now = false ∧
    s.deduct = (true, { s with remainingSessions := some (n - 1) }) := by
  constructor
  · rcases hst with h | h <;>
      simp [Subscription.isActive, h]
  · simp [Subscription.deduct, deductSession, hr, not_le.mpr hn]

theorem deduct_ignores_status_witness :
    cancelledSub.isActive 100 = false ∧
    cancelledSub.deduct =
      (true, { cancelledSub with remainingSessions := some 4 }) :=
  deduct_ignores_status cancelledSub 100 5 (Or.inl rfl) rfl (by decide)

/-! ## Calendar dates and the pre-save hook (C6, C10)

The pre-save hook and the `createSubscription` handler do JS `Date` calendar
arithmetic (`setDate`, `setMonth`, `setFullYear`), so here a date is a
year/month/day triple with JS conventions: `month` is 0-based, `day` is
1-based, and out-of-range components normalize by rolling into adjacent
months/years exactly as the JS setters do. -/

/-- A JS `Date` at calendar granularity: `month` 0-based, `day` 1-based. -/
structure SimpleDate where
  year : Int
  month : Int
  day : Int
deriving DecidableEq, Repr

/-- Gregorian leap year. -/
def isLeap (y : Int) : Bool :=
  (y % 4 == 0 && y % 100 != 0) || y % 400 == 0

/-- Days in month `m` (0-based, assumed normalized into 0..11) of year `y`. -/
def daysInMonth (y m : Int) : Int :=
  if m = 1 then (if isLeap y then 29 else 28)
  else if m = 3 ∨ m = 5 ∨ m = 8 ∨ m = 10 then 30
  else 31

/-- Normalize a (year, month) pair so the month lands in 0..11, carrying whole
years, as the JS `Date` setters do. -/
def normMonth (y m : Int) : Int × Int :=
  (y + m.fdiv 12, m.emod 12)

/-- Roll an out-of-range day-of-month into adjacent months (JS `Date`
normalization). The fuel bound strictly exceeds the number of month-steps any
input can need, so the fuel-exhausted base case is unreachable. -/
def rollDay : Nat → Int → Int → Int → SimpleDate
  | 0, y, m, d => ⟨y, m, d⟩
  | fuel + 1, y, m, d =>
      if d ≤ 0 then
        let p := normMonth y (m - 1)
        rollDay fuel p.1 p.2 (d + daysInMonth p.1 p.2)
      else if daysInMonth y m < d then
        let p := normMonth y (m + 1)
        rollDay fuel p.1 p.2 (d - daysInMonth y m)
      else ⟨y, m, d⟩

/-- Build the normalized date with the given raw components. -/
def mkDate (y m d : Int) : SimpleDate :=
  let p := normMonth y m
  rollDay (d.natAbs + 24) p.1 p.2 d

/-- JS `date.setDate(k)`: replace the day-of-month, normalizing. -/
def setDate (date : SimpleDate) (k : Int) : SimpleDate :=
  mkDate date.year date.month k

/-- JS `date.setMonth(m)`: replace the month, normalizing. -/
def setMonth (date : SimpleDate) (m : Int) : SimpleDate :=
  mkDate date.year m date.day

/-- JS `date.setFullYear(y)`: replace the year, normalizing. -/
def setFullYear (date : SimpleDate) (y : Int) : SimpleDate :=
  mkDate y date.month date.day

/-- The `switch (plan.duration.unit)` of the pre-save hook (subscriptionModel.js
lines 100-113): advance a copy of the start date by the plan duration. -/
def addDuration (dur : Duration) (start : SimpleDate) : SimpleDate :=
  match dur.unit with
  | DurUnit.days => setDate start (start.day + dur.value)
  | DurUnit.weeks => setDate start (start.day + dur.value * 7)
  | DurUnit.months => setMonth start (start.month + dur.value)
  | DurUnit.years => setFullYear start (start.year + dur.value)

/-- Creation-time view of a subscription document, as the pre-save hook sees
it: `endDate = none` models an unset (falsy) field. The schema defaults give a
fresh document `status = pending` and `remainingSessions = null` unless the
caller's request body supplies them. -/
structure SubDoc where
  startDate : SimpleDate
  endDate : Option SimpleDate
  status : SubStatus
  remainingSessions : Option Int
deriving DecidableEq, Repr

/-- JS truthiness of the numeric-or-null `plan.maxSessions` field: `null` and
`0` are falsy, every other number is truthy. -/
def jsTruthyNum : Option Int → Bool
  | none => false
  | some n => n != 0

/-- The subscription pre-save hook (subscriptionModel.js lines 86-126): on a
new document with no `endDate`, look up the plan (error if missing), compute
`endDate` from the plan duration, and set `remainingSessions` from
`plan.maxSessions` when that is truthy; otherwise leave the document alone. -/
def preSaveHook (isNew : Bool) (plan? : Option Plan) (doc : SubDoc) :
    Except String SubDoc :=
  if isNew && doc.endDate.isNone then
    match plan? with
    | none => Except.error "Subscription plan not found"
    | some plan =>
        let withEnd :=
          { doc with endDate := some (addDuration plan.duration doc.startDate) }
        if jsTruthyNum plan.maxSessions then
          Except.ok { withEnd with remainingSessions := plan.maxSessions }
        else
          Except.ok withEnd
  else
    Except.ok doc

/-- Reading `plan.durationType` (studentController.js lines 292-296): the
SubscriptionPlan schema defines `duration : {value, unit}` and no
`durationType` field, so in JS this property access yields undefined for every
plan document. -/
def planDurationType (_ : Plan) : Option String := none

/-- The endDate computation of the `createSubscription` handler
(studentController.js lines 289-298): copy the start date, then test
`plan.durationType` against the three unit strings. Each branch would add
`plan.duration` — which the schema makes a {value, unit} object, coercing to
NaN and producing an invalid date, modelled as `none` — but since
`plan.durationType` reads as undefined no branch ever fires, and the handler
keeps the copied start date. -/
def controllerEndDate (plan : Plan) (startDate : SimpleDate) :
    Option SimpleDate :=
  if planDurationType plan == some "days" then none
  else if planDurationType plan == some "months" then none
  else if planDurationType plan == some "years" then none
  else some startDate

/-- The `createSubscription` handler (studentController.js lines 257-315)
after plan lookup succeeds: it writes the computed `endDate` and
`status = active` into the request body and calls `Subscription.create`,
which runs the pre-save hook on the new document; the remaining fields keep
their schema defaults (`remainingSessions = null`). -/
def createSubscriptionController (plan : Plan) (startDate : SimpleDate) :
    Except String SubDoc :=
  preSaveHook true (some plan)
    { startDate := startDate
      endDate := controllerEndDate plan startDate
      status := SubStatus.active
      remainingSessions := none }

/-- A plan of duration one month with ten sessions. -/
def planMonthly10 : Plan :=
  { duration := { value := 1, unit := DurUnit.months }, maxSessions := some 10 }

/-- C6: evaluated at the failing input (plan duration {value 1, unit months},
maxSessions 10, startDate 2024-01-15): the handler persists the subscription
with `status = active` (not pending), `endDate` equal to the start date
2024-01-15 (not 2024-02-15, because `plan.durationType` does not exist on the
plan schema and no branch of the handler's date arithmetic fires), and
`remainingSessions = null` (not 10, because the handler always supplies an
`endDate`, which disables the pre-save hook). The hook itself — the path the
claim describes — does compute 2024-02-15 and `remainingSessions = 10` when no
`endDate` is supplied. -/
theorem createSubscription_at_jan15 :
    createSubscriptionController planMonthly10 ⟨2024, 0, 15⟩ =
      Except.ok
        { startDate := ⟨2024, 0, 15⟩
          endDate := some ⟨2024, 0, 15⟩
          status := SubStatus.active
          remainingSessions := none } ∧
    preSaveHook true (some planMonthly10)
        { startDate := ⟨2024, 0, 15⟩
          endDate := none
          status := SubStatus.pending
          remainingSessions := none } =
      Except.ok
        { startDate := ⟨2024, 0, 15⟩
          endDate := some ⟨2024, 1, 15⟩
          status := SubStatus.pending
          remainingSessions := some 10 } := by
  constructor <;> rfl

/-- C10: the pre-save hook initializes `remainingSessions` from the plan only
on a new document with no explicit `endDate` and a truthy (nonzero, non-null)
`plan.maxSessions`. If an `endDate` is supplied at creation the hook leaves
the document untouched, and if `maxSessions` is 0 (or null) only `endDate` is
computed — in both cases `remainingSessions` keeps its default null, and every
subsequent `deductSession` on such a subscription succeeds without ever
decrementing. -/
theorem preSaveHook_remainingSessions (plan : Plan) (doc : SubDoc)
    (e : SimpleDate) (k : Int) (N : Nat) :
    (doc.endDate = some e →
        preSaveHook true (some plan) doc = Except.ok doc) ∧
    (doc.endDate = none →
        (plan.maxSessions = none ∨ plan.maxSessions = some 0) →
        preSaveHook true (some plan) doc =
          Except.ok
            { doc with
                endDate := some (addDuration plan.duration doc.startDate) }) ∧
    (doc.endDate = none → plan.maxSessions = some k → k ≠ 0 →
        preSaveHook true (some plan) doc =
          Except.ok
            { doc with
                endDate := some (addDuration plan.duration doc.startDate)
                remainingSessions := some k }) ∧
    deductIter N none = (true, none) := by
  refine ⟨?_, ?_, ?_, deductIter_unlimited N⟩
  · intro h
    simp [preSaveHook, h]
  · intro h hmax
    rcases hmax with hm | hm <;> simp [preSaveHook, h, jsTruthyNum, hm]
  · intro h hmax hk
    simp [preSaveHook, h, jsTruthyNum, hmax, hk]

theorem preSaveHook_remainingSessions_witness :
    preSaveHook true (some planMonthly10)
        { startDate := ⟨2024, 0, 15⟩
          endDate := some ⟨2024, 5, 1⟩
          status := SubStatus.pending
          remainingSessions := none } =
      Except.ok
        { startDate := ⟨2024, 0, 15⟩
          endDate := some ⟨2024, 5, 1⟩
          status := SubStatus.pending
          remainingSessions := none } ∧
    deductIter 4 none = (true, none) :=
  ⟨(preSaveHook_remainingSessions planMonthly10
      { startDate := ⟨2024, 0, 15⟩
        endDate := some ⟨2024, 5, 1⟩
        status := SubStatus.pending
        remainingSessions := none } ⟨2024, 5, 1⟩ 0 4).1 rfl,
   (preSaveHook_remainingSessions planMonthly10
      { startDate := ⟨2024, 0, 15⟩
        endDate := some ⟨2024, 5, 1⟩
        status := SubStatus.pending
        remainingSessions := none } ⟨2024, 5, 1⟩ 0 4).2.2.2⟩

/-! ## Transaction ledger and `processRefund` (C4, C5)

The ledger is the list of transaction documents in insertion order; `findOne`
by `transactionId` returns the first match, `create` appends, and an in-place
`save` of a loaded document rewrites it at its position. The source throws
plain `Error`s; we tag them with the spec's error taxonomy. -/

/-- Error taxonomy of the spec for thrown errors of the source. -/
inductive LifecycleError
  | notFound
  | invalidState
  | validation
deriving DecidableEq, Repr

/-- A transaction document (transactionModel.js): `docId` is the storage-level
identity (`_id`), `txnId` the business `transactionId` that `findOne` queries,
and `refundedTransaction` the `_id` back-reference a refund row carries. -/
structure Txn where
  docId : Nat
  txnId : Nat
  ttype : TxType
  amount : Int
  status : TxStatus
  refundedTransaction : Option Nat
deriving DecidableEq, Repr

/-- Mongoose `findOne({transactionId})` over the ledger: first match wins. -/
def findTxn (l : List Txn) (id : Nat) : Option Txn :=
  l.find? (fun t => t.txnId == id)

/-- Saving a status change on the document `findOne` returned: rewrite the
first transaction with that `transactionId` in place. -/
def setStatusFirst : List Txn → Nat → TxStatus → List Txn
  | [], _, _ => []
  | t :: ts, id, st =>
      if t.txnId == id then { t with status := st } :: ts
      else t :: setStatusFirst ts id st

/-- JS `amount || originalTransaction.amount` (transactionModel.js line 149):
an absent argument and 0 are both falsy, so both fall back to the original
amount; every nonzero amount is used as given. -/
def jsOr (amount : Option Int) (dflt : Int) : Int :=
  match amount with
  | none => dflt
  | some a => if a = 0 then dflt else a

/-- The `processRefund` static (transactionModel.js lines 136-176): load the
original by `transactionId` (not-found error if absent); reject unless its
status is `completed`; compute the refund amount as `amount || original.amount`
and reject if it exceeds the original amount; otherwise append a completed
refund row referencing the original's `_id` and rewrite the original's status
to `refunded`. Errors leave the ledger untouched because the source throws
before any write. -/
def processRefund (l : List Txn) (id : Nat) (amount : Option Int)
    (newDocId newTxnId : Nat) : Option LifecycleError × List Txn :=
  match findTxn l id with
  | none => (some LifecycleError.notFound, l)
  | some orig =>
      if orig.status != TxStatus.completed then
        (some LifecycleError.invalidState, l)
      else
        let refundAmount := jsOr amount orig.amount
        if orig.amount < refundAmount then
          (some LifecycleError.validation, l)
        else
          (none,
           setStatusFirst l id TxStatus.refunded ++
             [{ docId := newDocId, txnId := newTxnId, ttype := TxType.refund,
                amount := refundAmount, status := TxStatus.completed,
                refundedTransaction := some orig.docId }])

theorem findTxn_setStatusFirst (id : Nat) (st : TxStatus) (rest : List Txn) :
    ∀ (l : List Txn) (orig : Txn), findTxn l id = some orig →
      findTxn (setStatusFirst l id st ++ rest) id =
        some { orig with status := st } := by
  intro l
  induction l with
  | nil => intro orig h; simp [findTxn] at h
  | cons t ts ih =>
      intro orig h
      cases hb : (t.txnId == id) with
      | true =>
          have ht : t = orig := by
            simpa [findTxn, List.find?, hb] using h
          subst ht
          simp [setStatusFirst, hb, findTxn, List.find?]
      | false =>
          have h' : findTxn ts id = some orig := by
            simpa [findTxn, List.find?, hb] using h
          have hstep : setStatusFirst (t :: ts) id st =
              t :: setStatusFirst ts id st := by
            simp [setStatusFirst, hb]
          show findTxn (setStatusFirst (t :: ts) id st ++ rest) id = _
          rw [hstep, List.cons_append]
          show List.find? (fun x => x.txnId == id)
              (t :: (setStatusFirst ts id st ++ rest)) = _
          rw [List.find?_cons_of_neg]
          · exact ih orig h'
          · simp [hb]

/-- C4: `processRefund` fails with the invalid-state error whenever the
original transaction's status is not `completed`, leaving the ledger without a
new refund row; and on success it rewrites the original's status to `refunded`,
so a second refund of the same transaction always fails with the invalid-state
error and adds nothing to the ledger. -/
theorem processRefund_contract (l : List Txn) (id : Nat) (a a' : Option Int)
    (d t d' t' : Nat) (orig : Txn) (hfind : findTxn l id = some orig) :
    (orig.status ≠ TxStatus.completed →
        processRefund l id a d t = (some LifecycleError.invalidState, l)) ∧
    (∀ l', processRefund l id a d t = (none, l') →
        findTxn l' id = some { orig with status := TxStatus.refunded } ∧
        processRefund l' id a' d' t' =
          (some LifecycleError.invalidState, l')) := by
  constructor
  · intro hst
    have hb : (orig.status != TxStatus.completed) = true := by
      simpa using hst
    simp [processRefund, hfind, hb]
  · intro l' h
    by_cases hst : orig.status = TxStatus.completed
    · by_cases hval : orig.amount < jsOr a orig.amount
      · exfalso
        simp [processRefund, hfind, hst, hval] at h
      · have hl' : l' = setStatusFirst l id TxStatus.refunded ++
            [{ docId := d, txnId := t, ttype := TxType.refund,
               amount := jsOr a orig.amount, status := TxStatus.completed,
               refundedTransaction := some orig.docId }] := by
          simp [processRefund, hfind, hst, hval] at h
          exact h.symm
        have hfound := findTxn_setStatusFirst id TxStatus.refunded
          [{ docId := d, txnId := t, ttype := TxType.refund,
             amount := jsOr a orig.amount, status := TxStatus.completed,
             refundedTransaction := some orig.docId }] l orig hfind
        subst hl'
        refine ⟨hfound, ?_⟩
        simp [processRefund, hfound]
    · exfalso
      have hb : (orig.status != TxStatus.completed) = true := by
        simpa using hst
      simp [processRefund, hfind, hb] at h

/-- The ledger of the witness: a single completed payment of 100. -/
def l0 : List Txn :=
  [{ docId := 1, txnId := 1, ttype := TxType.payment, amount := 100,
     status := TxStatus.completed, refundedTransaction := none }]

/-- The witness ledger after a successful full refund of the payment. -/
def l0afterRefund : List Txn :=
  [{ docId := 1, txnId := 1, ttype := TxType.payment, amount := 100,
     status := TxStatus.refunded, refundedTransaction := none },
   { docId := 2, txnId := 7, ttype := TxType.refund, amount := 100,
     status := TxStatus.completed, refundedTransaction := some 1 }]

theorem processRefund_contract_witness :
    findTxn l0afterRefund 1 =
      some { docId := 1, txnId := 1, ttype := TxType.payment, amount := 100,
             status := TxStatus.refunded, refundedTransaction := none } ∧
    processRefund l0afterRefund 1 none 3 8 =
      (some LifecycleError.invalidState, l0afterRefund) :=
  (processRefund_contract l0 1 none none 2 7 3 8
      { docId := 1, txnId := 1, ttype := TxType.payment, amount := 100,
        status := TxStatus.completed, refundedTransaction := none } rfl).2
    l0afterRefund rfl

/-- C5 counterexample: refunding the completed 100-unit payment of `l0` with
an explicit `amount = 0` succeeds and creates a refund row whose amount is the
full original 100 — not 0 as the claim's `amount ?? original.amount` reading
requires — because the source computes `amount || original.amount` and 0 is
falsy in JS. -/
theorem processRefund_zero_amount :
    processRefund l0 1 (some 0) 2 7 =
      (none,
       [{ docId := 1, txnId := 1, ttype := TxType.payment, amount := 100,
          status := TxStatus.refunded, refundedTransaction := none },
        { docId := 2, txnId := 7, ttype := TxType.refund, amount := 100,
          status := TxStatus.completed, refundedTransaction := some 1 }]) ∧
    jsOr (some 0) 100 = 100 ∧ (100 : Int) ≠ 0 := by
  refine ⟨rfl, rfl, by decide⟩

/-- C5 amended: the refund amount is `amount || original.amount` under JS
truthiness — it equals the provided amount only when that amount is nonzero,
and falls back to the original amount when the amount is absent or 0; whenever
the computed refund amount exceeds the original amount the call fails with the
validation error and creates no new transaction row. -/
theorem processRefund_amount_spec (l : List Txn) (id : Nat) (v dflt : Int)
    (a : Option Int) (d t : Nat) (orig : Txn)
    (hfind : findTxn l id = some orig) (hc : orig.status = TxStatus.completed) :
    jsOr none dflt = dflt ∧
    jsOr (some 0) dflt = dflt ∧
    (v ≠ 0 → jsOr (some v) dflt = v) ∧
    (orig.amount < jsOr a orig.amount →
        processRefund l id a d t = (some LifecycleError.validation, l)) ∧
    (v ≠ 0 → v ≤ orig.amount →
        processRefund l id (some v) d t =
          (none,
           setStatusFirst l id TxStatus.refunded ++
             [{ docId := d, txnId := t, ttype := TxType.refund, amount := v,
                status := TxStatus.completed,
                refundedTransaction := some orig.docId }])) := by
  refine ⟨rfl, by simp [jsOr], ?_, ?_, ?_⟩
  · intro hv
    simp [jsOr, hv]
  · intro hval
    simp [processRefund, hfind, hc, hval]
  · intro hv hle
    have hva : jsOr (some v) orig.amount = v := by simp [jsOr, hv]
    simp [processRefund, hfind, hc, hva, not_lt.mpr hle]

theorem processRefund_amount_spec_witness :
    jsOr none (100 : Int) = 100 ∧
    jsOr (some 0) (100 : Int) = 100 ∧
    jsOr (some 30) (100 : Int) = 30 ∧
    processRefund l0 1 (some 150) 2 7 = (some LifecycleError.validation, l0) ∧
    processRefund l0 1 (some 30) 2 7 =
      (none,
       [{ docId := 1, txnId := 1, ttype := TxType.payment, amount := 100,
          status := TxStatus.refunded, refundedTransaction := none },
        { docId := 2, txnId := 7, ttype := TxType.refund, amount := 30,
          status := TxStatus.completed, refundedTransaction := some 1 }]) := by
  have h := processRefund_amount_spec l0 1 30 100 (some 150) 2 7
    { docId := 1, txnId := 1, ttype := TxType.payment, amount := 100,
      status := TxStatus.completed, refundedTransaction := none } rfl rfl
  exact ⟨h.1, h.2.1, h.2.2.1 (by decide), h.2.2.2.1 (by decide),
    h.2.2.2.2 (by decide) (by decide)⟩

/-! ## Recording a payment (C7) -/

/-- The price subdocument of a subscription plan (subscriptionPlanModel.js
lines 28-39): an object holding a numeric amount and a currency string. -/
structure Price where
  amount : Int
  currency : String
deriving DecidableEq, Repr

/-- Mongoose Number casting of the value the handler writes into the
transaction body's amount slot: the plan's `price` is an {amount, currency}
object, and a plain object is not a number, a numeric string, a boolean or a
Date, so casting it to the transaction schema's required Number path `amount`
fails for every price object. -/
def castPriceToNumber (_ : Price) : Option Int := none

/-- The `createTransaction` handler of the subscription controller (lines
405-459) after the subscription lookup succeeds: it writes
`subscription.plan.price` into the transaction body's amount slot, forces the
body's status to `completed` (the type passes through from the request), and
calls `Transaction.create`. Because that amount is a price object while the
transaction schema requires a Number there, the create call throws a cast
error; control jumps to the catch block and the subscription update at lines
445-448 — set status to `active` whenever it is not already `active` — never
runs. Returns the thrown error message or the created row's (type, status),
together with the subscription as the handler leaves it. -/
def createTransactionController (ty : TxType) (price : Price)
    (s : Subscription) :
    Option String × Option (TxType × TxStatus) × Subscription :=
  match castPriceToNumber price with
  | none => (some "Cast to Number failed", none, s)
  | some _ =>
      (none, some (ty, TxStatus.completed),
       if s.status != SubStatus.active then { s with status := SubStatus.active }
       else s)

/-- C7: evaluated at the failing input — recording a payment against a
subscription whose plan price is {amount 100, currency USD}, as every
schema-conforming plan has — the handler throws inside `Transaction.create`
before any write, for every subscription; in particular for the cancelled one
no transaction row is created and the subscription comes back unchanged, and
likewise for a pending one, which therefore never transitions to `active`
through this handler, contrary to the claim. -/
theorem createTransaction_always_throws (ty : TxType) (price : Price)
    (s : Subscription) :
    createTransactionController ty price s =
      (some "Cast to Number failed", none, s) ∧
    createTransactionController TxType.payment ⟨100, "USD"⟩ cancelledSub =
      (some "Cast to Number failed", none, cancelledSub) ∧
    createTransactionController TxType.payment ⟨100, "USD"⟩
        { status := SubStatus.pending, startDate := 0, endDate := 1000,
          remainingSessions := some 8, cancelledAt := none,
          cancelReason := none } =
      (some "Cast to Number failed", none,
       { status := SubStatus.pending, startDate := 0, endDate := 1000,
         remainingSessions := some 8, cancelledAt := none,
         cancelReason := none }) :=
  ⟨rfl, rfl, rfl⟩

/-! ## Cancellation (C8) -/

/-- The `canBeCancelled` instance method (subscriptionModel.js lines 169-172):
true exactly when the stored status is `active`. -/
def Subscription.canBeCancelled (s : Subscription) : Bool :=
  s.status == SubStatus.active

/-- Modelled from the spec: `cancelSubscription(id, reason)` has no
implementation in the repository source (only the `canBeCancelled` predicate
exists); section 4.2 of the spec says it succeeds only if `canBeCancelled`,
setting status to `cancelled`, `cancelledAt` to now and storing the reason,
and fails with the invalid-state error otherwise. We build exactly that on the
source's `canBeCancelled`. -/
def cancelSubscription (s : Subscription) (now : Int) (reason : String) :
    Except LifecycleError Subscription :=
  if s.canBeCancelled then
    Except.ok
      { s with status := SubStatus.cancelled, cancelledAt := some now,
               cancelReason := some reason }
  else
    Except.error LifecycleError.invalidState

/-- A pending subscription (created, not yet paid). -/
def pendingSub : Subscription :=
  { status := SubStatus.pending
    startDate := 0
    endDate := 1000
    remainingSessions := some 8
    cancelledAt := none
    cancelReason := none }

/-- C8 counterexample: on a pending subscription `canBeCancelled` is false and
cancellation is rejected with the invalid-state error — the source predicate
admits only `active`, not `active` or `pending` as the claim states. -/
theorem cancel_pending_rejected :
    pendingSub.canBeCancelled = false ∧
    cancelSubscription pendingSub 5 "no longer needed" =
      Except.error LifecycleError.invalidState := by
  exact ⟨rfl, rfl⟩

/-- C8 amended: cancellation succeeds exactly when the current status is
`active` (the `canBeCancelled` predicate), setting status to `cancelled` and
recording `cancelledAt` and the reason; for every other status — pending as
well as already cancelled or expired — it fails with the invalid-state error
and changes nothing. -/
theorem cancelSubscription_spec (s : Subscription) (now : Int) (r : String) :
    (s.status = SubStatus.active →
        cancelSubscription s now r =
          Except.ok
            { s with status := SubStatus.cancelled, cancelledAt := some now,
                     cancelReason := some r }) ∧
    (s.status ≠ SubStatus.active →
        cancelSubscription s now r =
          Except.error LifecycleError.invalidState) := by
  constructor
  · intro h
    simp [cancelSubscription, Subscription.canBeCancelled, h]
  · intro h
    simp [cancelSubscription, Subscription.canBeCancelled, h]

/-- An active subscription used by witnesses. -/
def activeSub : Subscription :=
  { status := SubStatus.active
    startDate := 0
    endDate := 1000
    remainingSessions := some 3
    cancelledAt := none
    cancelReason := none }

theorem cancelSubscription_spec_witness :
    cancelSubscription activeSub 5 "moving away" =
      Except.ok
        { activeSub with status := SubStatus.cancelled, cancelledAt := some 5,
                         cancelReason := some "moving away" } ∧
    cancelSubscription pendingSub 5 "typo" =
      Except.error LifecycleError.invalidState :=
  ⟨(cancelSubscription_spec activeSub 5 "moving away").1 rfl,
   (cancelSubscription_spec pendingSub 5 "typo").2 (by decide)⟩

/-! ## Renewal window (C9) -/

/-- Milliseconds in a day. -/
def dayMs : Int := 86400000

/-- The `canBeRenewed` instance method (subscriptionModel.js lines 174-181):
status must be `active` or `expired`, and `now` must be strictly later than
`endDate` shifted 30 days earlier — the source compares against
`endDate.setDate(endDate.getDate() - 30)`, which is exactly the instant 30
days before `endDate`. There is no test against the later side of `endDate`. -/
def Subscription.canBeRenewed (s : Subscription) (now : Int) : Bool :=
  (s.status == SubStatus.active || s.status == SubStatus.expired) &&
    decide (s.endDate - 30 * dayMs < now)

/-- An expired subscription whose endDate is the epoch. -/
def expiredSub : Subscription :=
  { status := SubStatus.expired
    startDate := -100 * 86400000
    endDate := 0
    remainingSessions := none
    cancelledAt := none
    cancelReason := none }

/-- C9 counterexample: 100 days after `endDate` — far beyond the claimed
30-day upper window — `canBeRenewed` still returns true; and exactly at
`endDate` minus 30 days (which the claim includes with "no earlier than") it
returns false, because the source's comparison is strict and one-sided. -/
theorem canBeRenewed_no_upper_bound :
    expiredSub.canBeRenewed (100 * dayMs) = true ∧
    expiredSub.endDate + 30 * dayMs < 100 * dayMs ∧
    expiredSub.canBeRenewed (expiredSub.endDate - 30 * dayMs) = false := by
  refine ⟨by decide, by decide, by decide⟩

/-- C9 amended: `canBeRenewed` returns true if and only if the status is
`active` or `expired` and now is strictly later than `endDate` minus 30 days;
there is no upper bound, so it keeps returning true arbitrarily long after
`endDate`. -/
theorem canBeRenewed_spec (s : Subscription) (now : Int) :
    s.canBeRenewed now = true ↔
      ((s.status = SubStatus.active ∨ s.status = SubStatus.expired) ∧
        s.endDate - 30 * dayMs < now) := by
  cases s with
  | mk st sd ed rs ca cr =>
      cases st <;> simp [Subscription.canBeRenewed]
